import Mathlib

/-!
Verification of the Conan recipe build orchestrator
(`src/conan_recipe/build_conan_recipes.py`).

The script is embedded shallowly: the filesystem visible to
`ConanRecipeBuilder.find_recipes` is a `RootFS` value (the root path, its
existence / directory status, and its immediate children, each with the set
of names existing directly below it), and the external `conan` tool together
with the Python runtime is an oracle `world : String → ProcOutcome` giving,
for each recipe path, how the `subprocess.run` invocation turns out.
All definitions mirror the Python source line by line.
-/

namespace ConanRecipes

/-- Kind of a filesystem object, as distinguished by `pathlib`
(`is_dir` versus regular file versus anything else).  `Path.exists`
is true for every kind. -/
inductive FileKind where
  | file
  | dir
  | other
deriving DecidableEq, Repr

/-- One immediate child of the recipe root directory, as seen by
`self.recipe_dir.iterdir()`: its name, whether it is a directory, and the
named filesystem objects existing directly inside it (`(item / n).exists()`
holds exactly when `n` appears in `children`, with its kind). -/
structure FSEntry where
  name : String
  isDir : Bool
  children : List (String × FileKind)
deriving DecidableEq, Repr

/-- The recipe root directory as the script observes it: the path string,
whether `recipe_dir.exists()`, whether `recipe_dir.is_dir()`, and the
result of `recipe_dir.iterdir()` (in arbitrary on-disk order; the script
sorts it). -/
structure RootFS where
  path : String
  pathExists : Bool
  isDir : Bool
  entries : List FSEntry
deriving DecidableEq, Repr

/-- Embeds `(item / "conanfile.py").exists()`: a bare existence check,
satisfied by a child of any kind named `conanfile.py`. -/
def hasConanfile (e : FSEntry) : Bool :=
  e.children.any (fun c => c.1 == "conanfile.py")

/-- The qualification test of the loop body in `find_recipes`: the entry is
a directory (`item.is_dir()`) and contains `conanfile.py`. -/
def isRecipe (e : FSEntry) : Bool :=
  e.isDir && hasConanfile e

/-- Comparison used by `sorted(self.recipe_dir.iterdir())`: sibling `Path`
objects compare by their final component, i.e. lexicographically by name. -/
def nameLe (a b : FSEntry) : Bool :=
  decide (a.name ≤ b.name)

/-- Embeds `ConanRecipeBuilder.find_recipes`, keeping the `stderr` message
of the two early-return branches: if the root does not exist, or is not a
directory, print a (distinct) error and return `[]`; otherwise collect, in
sorted order, the children that are directories containing `conanfile.py`. -/
def find_recipes_msg (fs : RootFS) : List FSEntry × Option String :=
  if !fs.pathExists then
    ([], some ("错误: 目录不存在: " ++ fs.path))
  else if !fs.isDir then
    ([], some ("错误: 不是一个目录: " ++ fs.path))
  else
    ((fs.entries.mergeSort nameLe).filter isRecipe, none)

/-- The list of recipes `find_recipes` returns. -/
def find_recipes (fs : RootFS) : List FSEntry :=
  (find_recipes_msg fs).1

/-- The configuration `main` passes to the `ConanRecipeBuilder` constructor
(`recipe_dir` is carried separately as the `RootFS`). -/
structure BuildConfig where
  build_type : String
  verbose : Bool
  dry_run : Bool
deriving DecidableEq, Repr

/-- How one `subprocess.run(cmd, ...)` invocation turns out: the process
ran and exited with a code, or `subprocess.CalledProcessError` was raised,
or some other exception was raised. -/
inductive ProcOutcome where
  | exited (code : Int)
  | calledProcessError
  | otherException
deriving DecidableEq, Repr

/-- The observable outcome of `build_recipe` for one recipe: the `cmd`
argument list it assembled, whether it reached the `subprocess.run` call,
and the boolean it returned. -/
structure BuildResult where
  cmd : List String
  spawned : Bool
  succeeded : Bool
deriving DecidableEq, Repr

/-- Embeds `ConanRecipeBuilder.build_recipe`: assemble `cmd`; in dry-run
mode return success without spawning; otherwise spawn and map a zero exit
code to success, and a non-zero exit code, `CalledProcessError`, or any
other exception to failure. -/
def build_recipe (cfg : BuildConfig) (recipe_path : String)
    (outcome : ProcOutcome) : BuildResult :=
  let cmd := ["conan", "create", recipe_path,
              "-s", "build_type=" ++ cfg.build_type, "--build=missing"]
  if cfg.dry_run then
    { cmd := cmd, spawned := false, succeeded := true }
  else
    match outcome with
    | .exited code => { cmd := cmd, spawned := true, succeeded := code == 0 }
    | .calledProcessError => { cmd := cmd, spawned := true, succeeded := false }
    | .otherException => { cmd := cmd, spawned := true, succeeded := false }

/-- The path string handed to `build_recipe` for a discovered entry
(`str(recipe_path)` of `item = recipe_dir / name`). -/
def recipePath (fs : RootFS) (e : FSEntry) : String :=
  fs.path ++ "/" ++ e.name

/-- Body of the loop in `ConanRecipeBuilder.build_all`, acting on the
accumulated (trace of attempted recipe paths, failure count): call
`build_recipe` once for this recipe and increment `failures` when it
returns false. -/
def build_step (fs : RootFS) (cfg : BuildConfig) (world : String → ProcOutcome)
    (acc : List String × Nat) (r : FSEntry) : List String × Nat :=
  let p := recipePath fs r
  (acc.1 ++ [p],
   if (build_recipe cfg p (world p)).succeeded then acc.2 else acc.2 + 1)

/-- Embeds the loop of `ConanRecipeBuilder.build_all`, additionally
recording the trace of recipe paths on which `build_recipe` is invoked.
(The `if not recipes: return 0` early return coincides with the empty
fold.) -/
def build_all_trace (fs : RootFS) (cfg : BuildConfig)
    (world : String → ProcOutcome) : List String × Nat :=
  (find_recipes fs).foldl (build_step fs cfg world) ([], 0)

/-- The failure count `build_all` returns. -/
def build_all (fs : RootFS) (cfg : BuildConfig)
    (world : String → ProcOutcome) : Nat :=
  (build_all_trace fs cfg world).2

/-- The per-recipe results of one `build_all` run, in discovery order. -/
def build_results (fs : RootFS) (cfg : BuildConfig)
    (world : String → ProcOutcome) : List BuildResult :=
  (find_recipes fs).map (fun r => build_recipe cfg (recipePath fs r) (world (recipePath fs r)))

/-- The command-line options `main`'s argument parser defines: recipe
directory, build type, and the three boolean flags, including `--fail-fast`. -/
structure CLIArgs where
  recipe_dir : String
  build_type : String
  verbose : Bool
  dry_run : Bool
  fail_fast : Bool
deriving DecidableEq, Repr

/-- The `choices` list of the `--build-type` option. -/
def build_type_choices : List String :=
  ["Debug", "Release", "RelWithDebInfo", "MinSizeRel"]

/-- The builder configuration `main` constructs: exactly `recipe_dir`,
`build_type`, `verbose` and `dry_run` are forwarded; `args.fail_fast` is
never read. -/
def builderOf (args : CLIArgs) : BuildConfig :=
  { build_type := args.build_type, verbose := args.verbose, dry_run := args.dry_run }

/-- How the `try` block of `main` ends: `build_all` returns normally, or
`KeyboardInterrupt` is raised, or some other exception escapes. -/
inductive TopEvent where
  | completes
  | keyboardInterrupt
  | unexpectedException
deriving DecidableEq, Repr

/-- Embeds the `try`/`except` tail of `main`: on normal completion return 1
when `failures > 0` and 0 otherwise; return 130 on `KeyboardInterrupt` and
1 on any other exception. -/
def main_body (args : CLIArgs) (fs : RootFS) (world : String → ProcOutcome)
    (ev : TopEvent) : Int :=
  match ev with
  | .completes => if build_all fs (builderOf args) world > 0 then 1 else 0
  | .keyboardInterrupt => 130
  | .unexpectedException => 1

/-- Embeds `main` from `parser.parse_args()` on, as wrapped by
`sys.exit(main())`.  `argparse` validates `--build-type` against its
`choices` list and, on an invalid value, errors out of `main` with process
exit status 2 (the documented `argparse` failure status, which the
`except Exception` clause does not intercept because `SystemExit` is not an
`Exception`); otherwise the exit status is `main`'s return value. -/
def main_entry (args : CLIArgs) (fs : RootFS) (world : String → ProcOutcome)
    (ev : TopEvent) : Int :=
  if args.build_type ∈ build_type_choices then main_body args fs world ev else 2

/-! ## Helper lemmas -/

/-- The trace component of the `build_all` fold: every discovered recipe is
appended exactly once, in order. -/
lemma foldl_build_step_fst (fs : RootFS) (cfg : BuildConfig)
    (world : String → ProcOutcome) (l : List FSEntry) (acc : List String × Nat) :
    (l.foldl (build_step fs cfg world) acc).1 = acc.1 ++ l.map (recipePath fs) := by
  induction l generalizing acc with
  | nil => simp
  | cons a t ih => simp [List.foldl_cons, build_step, ih]

/-- The failure-count component of the `build_all` fold counts the recipes
whose `build_recipe` call returned false. -/
lemma foldl_build_step_snd (fs : RootFS) (cfg : BuildConfig)
    (world : String → ProcOutcome) (l : List FSEntry) (acc : List String × Nat) :
    (l.foldl (build_step fs cfg world) acc).2 =
      acc.2 + l.countP
        (fun r => !(build_recipe cfg (recipePath fs r) (world (recipePath fs r))).succeeded) := by
  induction l generalizing acc with
  | nil => simp
  | cons a t ih =>
    simp only [List.foldl_cons, List.countP_cons, ih, build_step]
    by_cases h : (build_recipe cfg (recipePath fs a) (world (recipePath fs a))).succeeded
    · simp [h]
    · simp only [Bool.eq_false_iff] at h
      simp [h]
      omega

/-- Unfolds `find_recipes` on a root that exists and is a directory. -/
lemma find_recipes_of_valid (fs : RootFS) (hex : fs.pathExists = true)
    (hdir : fs.isDir = true) :
    find_recipes fs = (fs.entries.mergeSort nameLe).filter isRecipe := by
  simp [find_recipes, find_recipes_msg, hex, hdir]

/-- Sample root used to instantiate theorems with hypotheses. -/
def fsSample : RootFS :=
  { path := "conan_recipe", pathExists := true, isDir := true,
    entries := [{ name := "slang", isDir := true,
                  children := [("conanfile.py", FileKind.file)] }] }

/-! ## Claims -/

/-- C1: on a root that exists and is a directory, `find_recipes` returns
exactly the immediate children that are directories containing
`conanfile.py` (as a permutation of the qualifying entries), sorted
lexicographically by name, and no non-qualifying entry appears in the
result. -/
theorem find_recipes_exact_and_sorted (fs : RootFS)
    (hex : fs.pathExists = true) (hdir : fs.isDir = true) :
    (find_recipes fs).Perm (fs.entries.filter isRecipe) ∧
    List.Pairwise (fun a b : FSEntry => a.name ≤ b.name) (find_recipes fs) ∧
    ∀ e ∈ fs.entries, isRecipe e = false → e ∉ find_recipes fs := by
  have hfr := find_recipes_of_valid fs hex hdir
  refine ⟨?_, ?_, ?_⟩
  · rw [hfr]
    exact (List.mergeSort_perm fs.entries nameLe).filter isRecipe
  · rw [hfr]
    have htrans : ∀ a b c : FSEntry,
        nameLe a b = true → nameLe b c = true → nameLe a c = true := by
      intro a b c hab hbc
      simp only [nameLe, decide_eq_true_eq] at hab hbc ⊢
      exact le_trans hab hbc
    have htotal : ∀ a b : FSEntry, (nameLe a b || nameLe b a) = true := by
      intro a b
      simp only [nameLe, Bool.or_eq_true, decide_eq_true_eq]
      exact le_total a.name b.name
    have hs := List.sorted_mergeSort htrans htotal fs.entries
    refine (List.Pairwise.filter isRecipe hs).imp ?_
    intro a b h
    simpa [nameLe] using h
  · intro e _ hbad hmem
    rw [hfr] at hmem
    have := List.of_mem_filter hmem
    simp [hbad] at this

/-- Closed instance of the C1 theorem at a concrete root. -/
theorem find_recipes_exact_and_sorted_witness :
    fsSample.pathExists = true ∧ fsSample.isDir = true ∧
    ((find_recipes fsSample).Perm (fsSample.entries.filter isRecipe) ∧
     List.Pairwise (fun a b : FSEntry => a.name ≤ b.name) (find_recipes fsSample) ∧
     ∀ e ∈ fsSample.entries, isRecipe e = false → e ∉ find_recipes fsSample) :=
  ⟨rfl, rfl, find_recipes_exact_and_sorted fsSample rfl rfl⟩

/-- C2: in every run of `build_all`, the trace of `build_recipe`
invocations is exactly the list of discovered recipe paths in discovery
order — each discovered recipe is attempted exactly once, sequentially,
none skipped and none attempted twice — and consequently the number of
per-recipe results equals the number of discovered recipes. -/
theorem build_all_attempts_each_recipe_once (fs : RootFS) (cfg : BuildConfig)
    (world : String → ProcOutcome) :
    (build_all_trace fs cfg world).1 = (find_recipes fs).map (recipePath fs) ∧
    (build_results fs cfg world).length = (find_recipes fs).length := by
  constructor
  · simpa using foldl_build_step_fst fs cfg world (find_recipes fs) ([], 0)
  · simp [build_results]

/-- C3: the failure count `build_all` returns equals the number of
per-recipe results with `succeeded = false`; an empty discovery yields
failure count 0; and `main` maps the failure count to return value 0 when
it is zero and 1 otherwise. -/
theorem build_all_failure_count (fs : RootFS) (cfg : BuildConfig)
    (world : String → ProcOutcome) :
    build_all fs cfg world
      = (build_results fs cfg world).countP (fun r => !r.succeeded) ∧
    (find_recipes fs = [] → build_all fs cfg world = 0) ∧
    (∀ args : CLIArgs,
      main_body args fs world TopEvent.completes
        = if build_all fs (builderOf args) world = 0 then 0 else 1) := by
  refine ⟨?_, ?_, ?_⟩
  · simp only [build_all, build_all_trace, build_results, List.countP_map,
      foldl_build_step_snd, Nat.zero_add]
    rfl
  · intro h
    simp [build_all, build_all_trace, h]
  · intro args
    simp only [main_body]
    rcases Nat.eq_zero_or_pos (build_all fs (builderOf args) world) with h | h
    · simp [h]
    · simp [h, Nat.pos_iff_ne_zero.mp h]

/-- Closed instance of the C3 theorem, discharging the empty-discovery
implication at a concrete root with no qualifying child. -/
theorem build_all_failure_count_witness :
    find_recipes { path := "x", pathExists := true, isDir := true, entries := [] } = [] ∧
    build_all { path := "x", pathExists := true, isDir := true, entries := [] }
      { build_type := "Debug", verbose := false, dry_run := false }
      (fun _ => ProcOutcome.exited 1) = 0 :=
  ⟨by simp [find_recipes, find_recipes_msg],
   (build_all_failure_count
      { path := "x", pathExists := true, isDir := true, entries := [] }
      { build_type := "Debug", verbose := false, dry_run := false }
      (fun _ => ProcOutcome.exited 1)).2.1 (by simp [find_recipes, find_recipes_msg])⟩

/-- C4: with `dry_run` off, a non-zero exit code, a launch failure
(`CalledProcessError`), or any other exception during invocation each
yield `succeeded = false`; and for every filesystem and every behavior of
the external tool the invocation trace is still exactly the discovered
recipes — a failed recipe is never retried and never aborts the rest of
the sequence. -/
theorem build_failures_normalized (cfg : BuildConfig) (h : cfg.dry_run = false) :
    (∀ p (c : Int), c ≠ 0 →
      (build_recipe cfg p (ProcOutcome.exited c)).succeeded = false) ∧
    (∀ p, (build_recipe cfg p ProcOutcome.calledProcessError).succeeded = false) ∧
    (∀ p, (build_recipe cfg p ProcOutcome.otherException).succeeded = false) ∧
    (∀ fs world,
      (build_all_trace fs cfg world).1 = (find_recipes fs).map (recipePath fs)) := by
  refine ⟨?_, ?_, ?_, ?_⟩
  · intro p c hc
    simp [build_recipe, h, hc]
  · intro p
    simp [build_recipe, h]
  · intro p
    simp [build_recipe, h]
  · intro fs world
    simpa using foldl_build_step_fst fs cfg world (find_recipes fs) ([], 0)

/-- Closed instance of the C4 theorem: a build that exits with code 2 is
recorded as failed. -/
theorem build_failures_normalized_witness :
    (build_recipe { build_type := "Debug", verbose := false, dry_run := false }
      "conan_recipe/slang" (ProcOutcome.exited 2)).succeeded = false :=
  (build_failures_normalized
    { build_type := "Debug", verbose := false, dry_run := false } rfl).1
    "conan_recipe/slang" 2 (by decide)

/-- C5: with `dry_run` on, `build_recipe` never reaches the process spawn
and reports every recipe as succeeded, so every run's failure count is 0
whatever the filesystem and the external tool would have done. -/
theorem dry_run_never_spawns (cfg : BuildConfig) (h : cfg.dry_run = true) :
    (∀ p o, (build_recipe cfg p o).spawned = false ∧
            (build_recipe cfg p o).succeeded = true) ∧
    (∀ fs world, build_all fs cfg world = 0) := by
  constructor
  · intro p o
    simp [build_recipe, h]
  · intro fs world
    simp [build_all, build_all_trace, foldl_build_step_snd, build_recipe, h]

/-- Closed instance of the C5 theorem at a concrete configuration, recipe
and external-tool behavior (which would have failed, had it run). -/
theorem dry_run_never_spawns_witness :
    (build_recipe { build_type := "Debug", verbose := false, dry_run := true }
      "conan_recipe/slang" (ProcOutcome.exited 2)).spawned = false ∧
    (build_recipe { build_type := "Debug", verbose := false, dry_run := true }
      "conan_recipe/slang" (ProcOutcome.exited 2)).succeeded = true :=
  (dry_run_never_spawns
    { build_type := "Debug", verbose := false, dry_run := true } rfl).1
    "conan_recipe/slang" (ProcOutcome.exited 2)

/-- Sample root whose path does not exist. -/
def fsMissing : RootFS :=
  { path := "/nope", pathExists := false, isDir := false, entries := [] }

/-- Sample builder configuration (the CLI defaults). -/
def cfgSample : BuildConfig :=
  { build_type := "Debug", verbose := false, dry_run := false }

/-- Sample external-tool behavior: every invocation exits with code 1. -/
def worldFail : String → ProcOutcome := fun _ => ProcOutcome.exited 1

/-- C6: when the configured root path does not exist, or exists but is not
a directory, discovery returns no recipes together with a descriptive
message, the two messages are distinct from one another, and such a run
attempts zero builds and reports zero work done. -/
theorem config_error_zero_builds (fs : RootFS) :
    (fs.pathExists = false →
      find_recipes_msg fs = ([], some ("错误: 目录不存在: " ++ fs.path))) ∧
    (fs.pathExists = true → fs.isDir = false →
      find_recipes_msg fs = ([], some ("错误: 不是一个目录: " ++ fs.path))) ∧
    ("错误: 目录不存在: " ++ fs.path ≠ "错误: 不是一个目录: " ++ fs.path) ∧
    (fs.pathExists = false ∨ fs.isDir = false →
      ∀ cfg world,
        (build_all_trace fs cfg world).1 = [] ∧ build_all fs cfg world = 0) := by
  refine ⟨?_, ?_, ?_, ?_⟩
  · intro h
    simp [find_recipes_msg, h]
  · intro h1 h2
    simp [find_recipes_msg, h1, h2]
  · intro hcontra
    have hl := congrArg String.length hcontra
    simp only [String.length_append] at hl
    have h11 : ("错误: 目录不存在: " : String).length = 11 := by decide
    have h12 : ("错误: 不是一个目录: " : String).length = 12 := by decide
    omega
  · intro h cfg world
    have hempty : find_recipes fs = [] := by
      rcases h with h | h
      · simp [find_recipes, find_recipes_msg, h]
      · cases hpe : fs.pathExists <;>
          simp [find_recipes, find_recipes_msg, hpe, h]
    constructor
    · simp [build_all_trace, hempty]
    · simp [build_all, build_all_trace, hempty]

/-- Closed instance of the C6 theorem at a concrete missing root. -/
theorem config_error_zero_builds_witness :
    find_recipes_msg fsMissing = ([], some ("错误: 目录不存在: " ++ fsMissing.path)) ∧
    (build_all_trace fsMissing cfgSample worldFail).1 = [] ∧
    build_all fsMissing cfgSample worldFail = 0 :=
  ⟨(config_error_zero_builds fsMissing).1 rfl,
   (config_error_zero_builds fsMissing).2.2.2 (Or.inl rfl) cfgSample worldFail⟩

/-- C7: the argument list handed to the external process is always exactly
`conan create <path> -s build_type=<type> --build=missing`, and it is a
deterministic function of the recipe path and the build type alone: two
configurations agreeing on the build type produce identical argument lists
for the same recipe, irrespective of the other flags or of the tool's
behavior. -/
theorem conan_cmd_wire_contract :
    (∀ (cfg : BuildConfig) (p : String) (o : ProcOutcome),
      (build_recipe cfg p o).cmd
        = ["conan", "create", p, "-s",
           "build_type=" ++ cfg.build_type, "--build=missing"]) ∧
    (∀ (cfg1 cfg2 : BuildConfig) (p : String) (o1 o2 : ProcOutcome),
      cfg1.build_type = cfg2.build_type →
      (build_recipe cfg1 p o1).cmd = (build_recipe cfg2 p o2).cmd) := by
  have h1 : ∀ (cfg : BuildConfig) (p : String) (o : ProcOutcome),
      (build_recipe cfg p o).cmd
        = ["conan", "create", p, "-s",
           "build_type=" ++ cfg.build_type, "--build=missing"] := by
    intro cfg p o
    unfold build_recipe
    cases h : cfg.dry_run <;> cases o <;> simp [h]
  refine ⟨h1, ?_⟩
  intro cfg1 cfg2 p o1 o2 hbt
  rw [h1, h1, hbt]

/-- Closed instance of the C7 theorem: the exact command line at a concrete
recipe, and its independence from the `verbose`/`dry_run` flags and the
outcome. -/
theorem conan_cmd_wire_contract_witness :
    (build_recipe cfgSample "conan_recipe/slang" (ProcOutcome.exited 0)).cmd
      = ["conan", "create", "conan_recipe/slang", "-s",
         "build_type=" ++ cfgSample.build_type, "--build=missing"] ∧
    (build_recipe cfgSample "p" (ProcOutcome.exited 0)).cmd
      = (build_recipe { build_type := "Debug", verbose := true, dry_run := true }
          "p" ProcOutcome.otherException).cmd :=
  ⟨conan_cmd_wire_contract.1 cfgSample "conan_recipe/slang" (ProcOutcome.exited 0),
   conan_cmd_wire_contract.2 cfgSample
     { build_type := "Debug", verbose := true, dry_run := true }
     "p" (ProcOutcome.exited 0) ProcOutcome.otherException rfl⟩

/-- C8: two argument sets differing only in the `--fail-fast` flag produce,
under the same filesystem and the same external-tool behavior, the same
trace of attempted recipes, the same per-recipe results, the same failure
count, and the same process exit status — the flag is parsed but has no
influence on behavior. -/
theorem fail_fast_has_no_influence (a1 a2 : CLIArgs)
    (_hd : a1.recipe_dir = a2.recipe_dir) (hb : a1.build_type = a2.build_type)
    (hv : a1.verbose = a2.verbose) (hr : a1.dry_run = a2.dry_run) :
    ∀ (fs : RootFS) (world : String → ProcOutcome) (ev : TopEvent),
      (build_all_trace fs (builderOf a1) world).1
        = (build_all_trace fs (builderOf a2) world).1 ∧
      build_results fs (builderOf a1) world = build_results fs (builderOf a2) world ∧
      build_all fs (builderOf a1) world = build_all fs (builderOf a2) world ∧
      main_entry a1 fs world ev = main_entry a2 fs world ev := by
  have hcfg : builderOf a1 = builderOf a2 := by
    simp [builderOf, hb, hv, hr]
  intro fs world ev
  refine ⟨by rw [hcfg], by rw [hcfg], by rw [hcfg], ?_⟩
  cases ev <;> simp [main_entry, main_body, hb, hcfg]

/-- Closed instance of the C8 theorem: flipping only `--fail-fast` changes
neither the failure count nor the exit status on a concrete run. -/
theorem fail_fast_has_no_influence_witness :
    build_all fsSample
        (builderOf { recipe_dir := ".", build_type := "Debug", verbose := false,
                     dry_run := false, fail_fast := false }) worldFail
      = build_all fsSample
          (builderOf { recipe_dir := ".", build_type := "Debug", verbose := false,
                       dry_run := false, fail_fast := true }) worldFail ∧
    main_entry { recipe_dir := ".", build_type := "Debug", verbose := false,
                 dry_run := false, fail_fast := false } fsSample worldFail
        TopEvent.completes
      = main_entry { recipe_dir := ".", build_type := "Debug", verbose := false,
                     dry_run := false, fail_fast := true } fsSample worldFail
          TopEvent.completes :=
  ⟨(fail_fast_has_no_influence _ _ rfl rfl rfl rfl fsSample worldFail
      TopEvent.completes).2.2.1,
   (fail_fast_has_no_influence _ _ rfl rfl rfl rfl fsSample worldFail
      TopEvent.completes).2.2.2⟩

/-- C9: the manifest check is a bare existence test: an immediate child
that is a directory qualifies as soon as something named `conanfile.py` of
any filesystem kind — a regular file, a directory, or anything else —
exists inside it. -/
theorem manifest_bare_existence (fs : RootFS) (e : FSEntry) (k : FileKind)
    (hex : fs.pathExists = true) (hdir : fs.isDir = true)
    (he : e ∈ fs.entries) (hed : e.isDir = true)
    (hm : ("conanfile.py", k) ∈ e.children) :
    e ∈ find_recipes fs := by
  rw [find_recipes_of_valid fs hex hdir]
  refine List.mem_filter.mpr ⟨?_, ?_⟩
  · exact (List.mergeSort_perm fs.entries nameLe).mem_iff.mpr he
  · simp only [isRecipe, hed, hasConanfile, Bool.true_and, List.any_eq_true]
    exact ⟨("conanfile.py", k), hm, by simp⟩

/-- Closed instance of the C9 theorem: a recipe directory whose
`conanfile.py` is itself a directory is still discovered. -/
theorem manifest_bare_existence_witness :
    ({ name := "weird", isDir := true,
       children := [("conanfile.py", FileKind.dir)] } : FSEntry)
      ∈ find_recipes
          { path := "root", pathExists := true, isDir := true,
            entries := [{ name := "weird", isDir := true,
                          children := [("conanfile.py", FileKind.dir)] }] } :=
  manifest_bare_existence
    { path := "root", pathExists := true, isDir := true,
      entries := [{ name := "weird", isDir := true,
                    children := [("conanfile.py", FileKind.dir)] }] }
    { name := "weird", isDir := true, children := [("conanfile.py", FileKind.dir)] }
    FileKind.dir rfl rfl (by simp) rfl (by simp)

/-- C10 counterexample: invoking the entry point with `--build-type Bogus`
terminates with process exit status 2 — `argparse` rejects the value
before the `try` block is reached — so the exit status is not always in
{0, 1, 130}. -/
theorem main_exit_status_cex :
    main_entry { recipe_dir := ".", build_type := "Bogus", verbose := false,
                 dry_run := false, fail_fast := false }
        fsMissing worldFail TopEvent.completes = 2 ∧
    ¬ (main_entry { recipe_dir := ".", build_type := "Bogus", verbose := false,
                    dry_run := false, fail_fast := false }
          fsMissing worldFail TopEvent.completes = 0 ∨
       main_entry { recipe_dir := ".", build_type := "Bogus", verbose := false,
                    dry_run := false, fail_fast := false }
          fsMissing worldFail TopEvent.completes = 1 ∨
       main_entry { recipe_dir := ".", build_type := "Bogus", verbose := false,
                    dry_run := false, fail_fast := false }
          fsMissing worldFail TopEvent.completes = 130) := by
  have h : main_entry { recipe_dir := ".", build_type := "Bogus", verbose := false,
                        dry_run := false, fail_fast := false }
        fsMissing worldFail TopEvent.completes = 2 := by
    simp [main_entry, build_type_choices]
  rw [h]
  exact ⟨rfl, by decide⟩

/-- C10 (amended): whenever the command-line arguments pass parsing (the
build type is one of the four allowed choices), every terminating
invocation of `main` exits with a status in {0, 1, 130}: 0 when the
failure count is zero, 1 when it is positive or an unhandled exception
escapes `build_all`, and 130 on user interruption. -/
theorem main_exit_status_partition (args : CLIArgs)
    (h : args.build_type ∈ build_type_choices) :
    ∀ (fs : RootFS) (world : String → ProcOutcome) (ev : TopEvent),
      (main_entry args fs world ev = 0 ∨ main_entry args fs world ev = 1 ∨
       main_entry args fs world ev = 130) ∧
      (build_all fs (builderOf args) world = 0 →
        main_entry args fs world TopEvent.completes = 0) ∧
      (0 < build_all fs (builderOf args) world →
        main_entry args fs world TopEvent.completes = 1) ∧
      main_entry args fs world TopEvent.unexpectedException = 1 ∧
      main_entry args fs world TopEvent.keyboardInterrupt = 130 := by
  intro fs world ev
  have hm : ∀ e, main_entry args fs world e = main_body args fs world e := by
    intro e
    simp [main_entry, h]
  refine ⟨?_, ?_, ?_, by simp [hm, main_body], by simp [hm, main_body]⟩
  · rw [hm]
    cases ev with
    | completes =>
      simp only [main_body]
      rcases Nat.eq_zero_or_pos (build_all fs (builderOf args) world) with hz | hz
      · simp [hz]
      · simp [hz]
    | keyboardInterrupt => simp [main_body]
    | unexpectedException => simp [main_body]
  · intro hz
    simp [hm, main_body, hz]
  · intro hz
    simp [hm, main_body, Nat.pos_iff_ne_zero.mp hz]

/-- Closed instance of the amended C10 theorem: with the default valid
arguments, a missing root yields zero failures and exit status 0, while an
interruption yields exit status 130. -/
theorem main_exit_status_partition_witness :
    ({ recipe_dir := ".", build_type := "Debug", verbose := false,
       dry_run := false, fail_fast := false } : CLIArgs).build_type
        ∈ build_type_choices ∧
    main_entry { recipe_dir := ".", build_type := "Debug", verbose := false,
                 dry_run := false, fail_fast := false }
        fsMissing worldFail TopEvent.completes = 0 ∧
    main_entry { recipe_dir := ".", build_type := "Debug", verbose := false,
                 dry_run := false, fail_fast := false }
        fsMissing worldFail TopEvent.keyboardInterrupt = 130 :=
  ⟨by decide,
   (main_exit_status_partition _ (by decide) fsMissing worldFail
      TopEvent.completes).2.1 rfl,
   (main_exit_status_partition _ (by decide) fsMissing worldFail
      TopEvent.completes).2.2.2.2⟩

end ConanRecipes
